import Mathlib

/-!
Shallow embedding of `custom_components/iopgps/iopgps_data.py`.

Python values coming from parsed JSON bodies are modelled by `JVal`
(Python `None` is `JVal.jnull`).  Python exceptions are modelled by
`PyErr`; a fallible step returns `Except PyErr α`.  Attributes of the
gateway object that the constructor never sets (`token`, `expiresIn`)
are modelled as `Option` fields, `none` meaning "attribute not set";
reading an unset attribute raises `PyErr.attributeError`, exactly as
CPython does.

Network I/O is modelled by an oracle `Env := Nat → NetResult` giving the
response to the n-th request issued during a run, together with an
explicit trace (`List NetCall`) of the requests issued.  `time.time()`
is modelled as a constant `now : Int` during a single operation.
-/

inductive JVal where
  | jnull : JVal
  | jbool : Bool → JVal
  | jnum : Int → JVal
  | jstr : String → JVal
  | jarr : List JVal → JVal
  | jobj : List (String × JVal) → JVal

inductive PyErr where
  | apiError : JVal → PyErr
  | timeoutError : PyErr
  | keyError : PyErr
  | typeError : PyErr
  | attributeError : PyErr
  | valueError : PyErr
  | otherError : PyErr

/-- Python truthiness of a JSON-derived value. -/
def truthy : JVal → Bool
  | .jnull => false
  | .jbool b => b
  | .jnum n => n != 0
  | .jstr s => s != ""
  | .jarr xs => !xs.isEmpty
  | .jobj fs => !fs.isEmpty

/-- Python subscript `j[k]` with a string key: dict lookup (`KeyError`
when missing), `TypeError` on every non-dict value. -/
def pyIndex (j : JVal) (k : String) : Except PyErr JVal :=
  match j with
  | .jobj fs =>
    match fs.lookup k with
    | some v => .ok v
    | none => .error .keyError
  | _ => .error .typeError

/-- Python iteration `for x in j`: lists yield their elements, dicts
their keys, strings their characters; other values raise `TypeError`. -/
def pyIter (j : JVal) : Except PyErr (List JVal) :=
  match j with
  | .jarr xs => .ok xs
  | .jobj fs => .ok (fs.map fun p => .jstr p.1)
  | .jstr s => .ok (s.data.map fun c => .jstr (String.mk [c]))
  | _ => .error .typeError

/-- Python `int(j)` conversion. -/
def pyInt (j : JVal) : Except PyErr Int :=
  match j with
  | .jnum n => .ok n
  | .jbool b => .ok (if b then 1 else 0)
  | .jstr s =>
    match s.toInt? with
    | some n => .ok n
    | none => .error .valueError
  | _ => .error .typeError

/-- Python comparison `n > j` for an int `n`: numbers (and bools, which
are ints in Python) compare; every other operand raises `TypeError`. -/
def pyGtInt (n : Int) : JVal → Except PyErr Bool
  | .jnum m => .ok (decide (n > m))
  | .jbool b => .ok (decide (n > (if b then 1 else 0)))
  | _ => .error .typeError

/-- Python `f-string` rendering of a scalar value (container rendering
is not modelled; no code path in the claims observes it). -/
def pyStr : JVal → String
  | .jnull => "None"
  | .jbool b => if b then "True" else "False"
  | .jnum n => toString n
  | .jstr s => s
  | .jarr _ => "<list>"
  | .jobj _ => "<dict>"

/-! ### MD5 (RFC 1321), over byte lists, words as `Nat` reduced mod 2^32 -/

def M32 : Nat := 4294967296

def madd (a b : Nat) : Nat := (a + b) % M32

def mnot (a : Nat) : Nat := 4294967295 - a

def rotl (x s : Nat) : Nat := ((x <<< s) % M32) ||| (x >>> (32 - s))

def md5K : List Nat :=
  [0xd76aa478, 0xe8c7b756, 0x242070db, 0xc1bdceee,
   0xf57c0faf, 0x4787c62a, 0xa8304613, 0xfd469501,
   0x698098d8, 0x8b44f7af, 0xffff5bb1, 0x895cd7be,
   0x6b901122, 0xfd987193, 0xa679438e, 0x49b40821,
   0xf61e2562, 0xc040b340, 0x265e5a51, 0xe9b6c7aa,
   0xd62f105d, 0x02441453, 0xd8a1e681, 0xe7d3fbc8,
   0x21e1cde6, 0xc33707d6, 0xf4d50d87, 0x455a14ed,
   0xa9e3e905, 0xfcefa3f8, 0x676f02d9, 0x8d2a4c8a,
   0xfffa3942, 0x8771f681, 0x6d9d6122, 0xfde5380c,
   0xa4beea44, 0x4bdecfa9, 0xf6bb4b60, 0xbebfbc70,
   0x289b7ec6, 0xeaa127fa, 0xd4ef3085, 0x04881d05,
   0xd9d4d039, 0xe6db99e5, 0x1fa27cf8, 0xc4ac5665,
   0xf4292244, 0x432aff97, 0xab9423a7, 0xfc93a039,
   0x655b59c3, 0x8f0ccc92, 0xffeff47d, 0x85845dd1,
   0x6fa87e4f, 0xfe2ce6e0, 0xa3014314, 0x4e0811a1,
   0xf7537e82, 0xbd3af235, 0x2ad7d2bb, 0xeb86d391]

def md5S : List Nat :=
  [7, 12, 17, 22, 7, 12, 17, 22, 7, 12, 17, 22, 7, 12, 17, 22,
   5, 9, 14, 20, 5, 9, 14, 20, 5, 9, 14, 20, 5, 9, 14, 20,
   4, 11, 16, 23, 4, 11, 16, 23, 4, 11, 16, 23, 4, 11, 16, 23,
   6, 10, 15, 21, 6, 10, 15, 21, 6, 10, 15, 21, 6, 10, 15, 21]

def md5F (i b c d : Nat) : Nat :=
  if i < 16 then (b &&& c) ||| (mnot b &&& d)
  else if i < 32 then (d &&& b) ||| (mnot d &&& c)
  else if i < 48 then b ^^^ c ^^^ d
  else c ^^^ (b ||| mnot d)

def md5G (i : Nat) : Nat :=
  if i < 16 then i
  else if i < 32 then (5 * i + 1) % 16
  else if i < 48 then (3 * i + 5) % 16
  else (7 * i) % 16

def md5Step (x : List Nat) (abcd : Nat × Nat × Nat × Nat) (i : Nat) :
    Nat × Nat × Nat × Nat :=
  let a := abcd.1
  let b := abcd.2.1
  let c := abcd.2.2.1
  let d := abcd.2.2.2
  let f := md5F i b c d
  let k := md5K.getD i 0
  let sh := md5S.getD i 0
  let xg := x.getD (md5G i) 0
  (d, madd b (rotl (madd (madd (madd a f) k) xg) sh), b, c)

/-- Group a byte list into 32-bit little-endian words. -/
def words4 : List Nat → List Nat
  | b0 :: b1 :: b2 :: b3 :: rest =>
    (b0 + b1 * 256 + b2 * 65536 + b3 * 16777216) :: words4 rest
  | _ => []

def md5Chunk (acc : Nat × Nat × Nat × Nat) (chunk : List Nat) :
    Nat × Nat × Nat × Nat :=
  let x := words4 chunk
  let r := (List.range 64).foldl (md5Step x) acc
  (madd acc.1 r.1, madd acc.2.1 r.2.1, madd acc.2.2.1 r.2.2.1,
   madd acc.2.2.2 r.2.2.2)

/-- Split into 64-byte chunks (fuel-based so it reduces in the kernel). -/
def chunks64Aux : Nat → List Nat → List (List Nat)
  | 0, _ => []
  | _ + 1, [] => []
  | fuel + 1, l => l.take 64 :: chunks64Aux fuel (l.drop 64)

def chunks64 (l : List Nat) : List (List Nat) := chunks64Aux (l.length + 1) l

def leBytes (w : Nat) : List Nat :=
  [w % 256, (w >>> 8) % 256, (w >>> 16) % 256, (w >>> 24) % 256]

def md5Pad (msg : List Nat) : List Nat :=
  let len := msg.length
  let zeros := (119 - len % 64) % 64
  let bitLen := (8 * len) % (2 ^ 64)
  msg ++ [0x80] ++ List.replicate zeros 0 ++
    ((List.range 8).map fun i => (bitLen >>> (8 * i)) % 256)

def md5Bytes (msg : List Nat) : List Nat :=
  let r := (chunks64 (md5Pad msg)).foldl md5Chunk
    (0x67452301, 0xefcdab89, 0x98badcfe, 0x10325476)
  leBytes r.1 ++ leBytes r.2.1 ++ leBytes r.2.2.1 ++ leBytes r.2.2.2

/-- The lowercase hex digit for a nibble: `0`–`9` then `a`–`f`. -/
def hexChar (n : Nat) : Char :=
  if n < 10 then Char.ofNat (48 + n) else Char.ofNat (87 + n)

/-- Lowercase hex rendering, as Python's `hexdigest()`. -/
def md5hex (msg : List Nat) : String :=
  String.mk ((md5Bytes msg).foldr
    (fun b acc => hexChar (b / 16) :: hexChar (b % 16) :: acc) [])

def utf8Char (c : Char) : List Nat :=
  let n := c.toNat
  if n < 0x80 then [n]
  else if n < 0x800 then
    [0xC0 ||| (n >>> 6), 0x80 ||| (n &&& 0x3F)]
  else if n < 0x10000 then
    [0xE0 ||| (n >>> 12), 0x80 ||| ((n >>> 6) &&& 0x3F), 0x80 ||| (n &&& 0x3F)]
  else
    [0xF0 ||| (n >>> 18), 0x80 ||| ((n >>> 12) &&& 0x3F),
     0x80 ||| ((n >>> 6) &&& 0x3F), 0x80 ||| (n &&& 0x3F)]

/-- Python `s.encode()` (UTF-8). -/
def utf8Bytes (s : String) : List Nat :=
  s.data.foldr (fun c acc => utf8Char c ++ acc) []

/-! ### Data model (`IOPGPSDevice`, `IOPGPSPositionData`, gateway state)

Field values copied out of JSON bodies keep their `JVal` type, since the
Python code stores whatever the server sent without conversion (the
class-level `str` annotations are not enforced at runtime).  -/

structure IOPGPSDevice where
  imei : JVal
  name : JVal
  mobile : JVal
  battery_percentage : JVal

structure IOPGPSPositionData where
  imei : JVal
  lat : JVal
  lng : JVal
  gpsTime : Int
  address : JVal

/-- State of one `IOPGPSData` object.  `token` and `expiresIn` are
`none` while the attribute has never been assigned (the constructor does
not set them); `some v` holds the Python value of the attribute. -/
structure GState where
  guid : String
  entry_name : String
  user : String
  key : String
  token : Option JVal := none
  expiresIn : Option JVal := none
  devices : List IOPGPSDevice := []
  positions : List IOPGPSPositionData := []

/-- `IOPGPSData.__init__`: stores the four credential fields and nothing
else; no network I/O, no token, no data. -/
def IOPGPSData_init (guid entry_name user key : String) : GState :=
  { guid := guid, entry_name := entry_name, user := user, key := key,
    token := none, expiresIn := none, devices := [], positions := [] }

def API_URL : String := "https://open.iopgps.com/api/"

/-! ### Network model -/

/-- What the server returns for one request: a 200 response with a JSON
body, a non-200 response with a JSON body, a timeout, or a generic
transport failure (any other `aiohttp` exception). -/
inductive NetResult where
  | ok200 : JVal → NetResult
  | httpErr : JVal → NetResult
  | timeout : NetResult
  | transportErr : NetResult

/-- A record of one request issued by the gateway. -/
inductive NetCall where
  | get : String → List (String × String) → List (String × JVal) → NetCall
  | post : String → List (String × String) → List (String × String) →
      List (String × JVal) → NetCall

/-- Oracle giving the server behaviour for the n-th request of a run. -/
def Env : Type := Nat → NetResult

/-- `IOPGPSData.make_get_request`.  On 200 returns the body; on non-200
evaluates `json.get("error")` (an `AttributeError` on non-dict bodies)
and raises `ApiError(json)` when that is truthy, otherwise falls off the
end of the function and returns Python `None`; timeouts raise
`TimeoutError`. -/
def make_get_request (env : Env) (tr : List NetCall) (url : String)
    (headers : List (String × String)) (params : List (String × JVal)) :
    Except PyErr JVal × List NetCall :=
  let tr1 := tr ++ [NetCall.get url headers params]
  match env tr.length with
  | .ok200 j => (.ok j, tr1)
  | .httpErr j =>
    match j with
    | .jobj fs =>
      match fs.lookup "error" with
      | some v => if truthy v then (.error (.apiError v), tr1) else (.ok .jnull, tr1)
      | none => (.ok .jnull, tr1)
    | _ => (.error .attributeError, tr1)
  | .timeout => (.error .timeoutError, tr1)
  | .transportErr => (.error .otherError, tr1)

/-- `IOPGPSData.make_post_request`.  On 200 returns the body; on non-200
unconditionally executes `raise ApiError(json)`, whose constructor reads
`json["error"]` — so a body without an `error` key escapes as `KeyError`
(and a non-dict body as `TypeError`), not as a swallowed error. -/
def make_post_request (env : Env) (tr : List NetCall) (url : String)
    (headers : List (String × String)) (payload : List (String × String))
    (params : List (String × JVal)) :
    Except PyErr JVal × List NetCall :=
  let tr1 := tr ++ [NetCall.post url headers payload params]
  match env tr.length with
  | .ok200 j => (.ok j, tr1)
  | .httpErr j =>
    match pyIndex j "error" with
    | .ok v => (.error (.apiError v), tr1)
    | .error e => (.error e, tr1)
  | .timeout => (.error .timeoutError, tr1)
  | .transportErr => (.error .otherError, tr1)

/-- `IOPGPSData.get_standard_headers`: reads `self.token` (an
`AttributeError` if authentication never stored one) and renders it into
the `accessToken` header. -/
def get_standard_headers (s : GState) : Except PyErr (List (String × String)) :=
  match s.token with
  | none => .error .attributeError
  | some tv => .ok [("accessToken", pyStr tv)]

/-! ### Authentication (`get_authen_token`, `refresh_token`) -/

/-- `IOPGPSData.get_authen_token`.  Computes
`signature = md5(md5(key).hexdigest() + str(int(time.time())))` and
POSTs `{'appid': user, 'time': timestamp, 'signature': signature}` to
`API_URL + "auth/"`.  On success stores `expiresIn` and `token` exactly
as received and returns the token; every failure (`ApiError`,
`TimeoutError`, any other exception, including `KeyError` from a body
missing `accessToken`/`expiresIn`) is caught inside the function and
turned into a Python `None` return with the state untouched. -/
def get_authen_token (env : Env) (now : Int) (s : GState) (tr : List NetCall) :
    JVal × GState × List NetCall :=
  let timestamp := toString now
  let signature := md5hex (utf8Bytes (md5hex (utf8Bytes s.key) ++ timestamp))
  let url := API_URL ++ "auth/"
  let payload := [("appid", s.user), ("time", timestamp), ("signature", signature)]
  let headers := [("accept", "application/json")]
  match make_post_request env tr url headers payload [] with
  | (.ok json, tr1) =>
    match pyIndex json "accessToken" with
    | .error _ => (.jnull, s, tr1)
    | .ok tok =>
      match pyIndex json "expiresIn" with
      | .error _ => (.jnull, s, tr1)
      | .ok expv =>
        (tok, { s with expiresIn := some expv, token := some tok }, tr1)
  | (.error _, tr1) => (.jnull, s, tr1)

/-- `IOPGPSData.clean_data`: `self.devices = []`, `self.positions = []`. -/
def clean_data (s : GState) : GState := { s with devices := [], positions := [] }

/-- Body of the `try:` block in `refresh_token` (the two self-assignments
of `user` and `key` are no-ops).  It cannot raise, because
`get_authen_token` swallows every exception internally; hence the
`except` handlers of `refresh_token` — including the one that calls
`clean_data` — are dead code. -/
def refresh_token_body (env : Env) (now : Int) (s : GState) (tr : List NetCall) :
    Except PyErr Unit × GState × List NetCall :=
  match get_authen_token env now s tr with
  | (new_token, s1, tr1) =>
    if truthy new_token then (.ok (), { s1 with token := some new_token }, tr1)
    else (.ok (), s1, tr1)

/-- The `try:` body of `refresh_token` together with its `except`
cascade: `except TimeoutError` only logs, `except Exception` calls
`clean_data`.  Since the body never raises, the handlers are dead. -/
def refresh_token_guarded (env : Env) (now : Int) (s : GState)
    (tr : List NetCall) : Except PyErr Unit × GState × List NetCall :=
  match refresh_token_body env now s tr with
  | (.ok u, s1, tr1) => (.ok u, s1, tr1)
  | (.error .timeoutError, s1, tr1) => (.ok (), s1, tr1)
  | (.error _, s1, tr1) => (.ok (), clean_data s1, tr1)

/-- `IOPGPSData.refresh_token`.  The guard
`(int(time.time()) > self.expiresIn) or self.token is None or forced`
evaluates left to right with Python short-circuiting: reading an unset
`expiresIn` (or an unset `token` when the first disjunct is false)
raises `AttributeError` out of the method, since the guard sits outside
the `try:` block. -/
def refresh_token (env : Env) (now : Int) (s : GState) (forced : Bool)
    (tr : List NetCall) : Except PyErr Unit × GState × List NetCall :=
  match s.expiresIn with
  | none => (.error .attributeError, s, tr)
  | some ev =>
    match pyGtInt now ev with
    | .error e => (.error e, s, tr)
    | .ok expired =>
      if expired then refresh_token_guarded env now s tr
      else
        match s.token with
        | none => (.error .attributeError, s, tr)
        | some .jnull => refresh_token_guarded env now s tr
        | some _ =>
          if forced then refresh_token_guarded env now s tr
          else (.ok (), s, tr)

/-! ### Device and position fetchers -/

/-- The loop body of `update_devices_data`: for each entry of
`json["data"]`, reads `device["imei"]`, GETs `device/detail/`, and
assembles an `IOPGPSDevice`, in the source's evaluation order.  Any
exception aborts the whole loop with no partial result. -/
def devDetailLoop (env : Env) (headers : List (String × String)) :
    List JVal → List NetCall →
    Except PyErr (List IOPGPSDevice) × List NetCall
  | [], tr => (.ok [], tr)
  | dj :: rest, tr =>
    match pyIndex dj "imei" with
    | .error e => (.error e, tr)
    | .ok imei =>
      match make_get_request env tr (API_URL ++ "device/detail/") headers
          [("imei", imei)] with
      | (.error e, tr1) => (.error e, tr1)
      | (.ok json_device, tr1) =>
        match pyIndex json_device "data" with
        | .error e => (.error e, tr1)
        | .ok jd =>
          match pyIndex dj "name" with
          | .error e => (.error e, tr1)
          | .ok nm =>
            match pyIndex dj "mobile" with
            | .error e => (.error e, tr1)
            | .ok mb =>
              match pyIndex jd "deviceStatus" with
              | .error e => (.error e, tr1)
              | .ok st =>
                match pyIndex st "batteryPercentage" with
                | .error e => (.error e, tr1)
                | .ok bp =>
                  match devDetailLoop env headers rest tr1 with
                  | (.error e, tr2) => (.error e, tr2)
                  | (.ok ds, tr2) =>
                    (.ok ({ imei := imei, name := nm, mobile := mb,
                            battery_percentage := bp } :: ds), tr2)

/-- Body of the `try:` block of `update_devices_data`: GET the device
list, then run the per-device detail loop. -/
def devices_try_body (env : Env) (headers : List (String × String))
    (tr : List NetCall) : Except PyErr (List IOPGPSDevice) × List NetCall :=
  match make_get_request env tr (API_URL ++ "device") headers [] with
  | (.error e, tr1) => (.error e, tr1)
  | (.ok json, tr1) =>
    match pyIndex json "data" with
    | .error e => (.error e, tr1)
    | .ok jdata =>
      match pyIter jdata with
      | .error e => (.error e, tr1)
      | .ok djs => devDetailLoop env headers djs tr1

/-- The `except` cascade of `update_devices_data`: `ApiError` and the
generic `except Exception` set `self.devices = []`; `except
TimeoutError` only logs a warning and leaves the list as it was. -/
def devices_handler (e : PyErr) (s : GState) (tr : List NetCall) :
    Except PyErr Unit × GState × List NetCall :=
  match e with
  | .timeoutError => (.ok (), s, tr)
  | _ => (.ok (), { s with devices := [] }, tr)

/-- `IOPGPSData.update_devices_data`.  `get_standard_headers()` is
evaluated before the `try:` block, so its `AttributeError` (unset token)
propagates to the caller. -/
def update_devices_data (env : Env) (s : GState) (tr : List NetCall) :
    Except PyErr Unit × GState × List NetCall :=
  match get_standard_headers s with
  | .error e => (.error e, s, tr)
  | .ok headers =>
    match devices_try_body env headers tr with
    | (.ok ds, tr1) => (.ok (), { s with devices := ds }, tr1)
    | (.error e, tr1) => devices_handler e s tr1

/-- The loop body of `update_position_data`: one `device/location` GET
per currently known device, building an `IOPGPSPositionData` from
`json["lat"]`, `json["lng"]`, `int(json["gpsTime"])`, `json["address"]`
in the source's evaluation order. -/
def posLoop (env : Env) (headers : List (String × String)) :
    List IOPGPSDevice → List NetCall →
    Except PyErr (List IOPGPSPositionData) × List NetCall
  | [], tr => (.ok [], tr)
  | d :: rest, tr =>
    match make_get_request env tr (API_URL ++ "device/location") headers
        [("imei", d.imei)] with
    | (.error e, tr1) => (.error e, tr1)
    | (.ok json, tr1) =>
      match pyIndex json "lat" with
      | .error e => (.error e, tr1)
      | .ok lat =>
        match pyIndex json "lng" with
        | .error e => (.error e, tr1)
        | .ok lng =>
          match pyIndex json "gpsTime" with
          | .error e => (.error e, tr1)
          | .ok gt0 =>
            match pyInt gt0 with
            | .error e => (.error e, tr1)
            | .ok gt1 =>
              match pyIndex json "address" with
              | .error e => (.error e, tr1)
              | .ok addr =>
                match posLoop env headers rest tr1 with
                | (.error e, tr2) => (.error e, tr2)
                | (.ok ps, tr2) =>
                  (.ok ({ imei := d.imei, lat := lat, lng := lng,
                          gpsTime := gt1, address := addr } :: ps), tr2)

/-- Body of the `try:` block of `update_position_data`. -/
def positions_try_body (env : Env) (headers : List (String × String))
    (devs : List IOPGPSDevice) (tr : List NetCall) :
    Except PyErr (List IOPGPSPositionData) × List NetCall :=
  posLoop env headers devs tr

/-- The `except` cascade of `update_position_data`: same shape as the
device one — `TimeoutError` only logs, everything else empties the list. -/
def positions_handler (e : PyErr) (s : GState) (tr : List NetCall) :
    Except PyErr Unit × GState × List NetCall :=
  match e with
  | .timeoutError => (.ok (), s, tr)
  | _ => (.ok (), { s with positions := [] }, tr)

/-- `IOPGPSData.update_position_data`.  Headers are again computed
before the `try:`. -/
def update_position_data (env : Env) (s : GState) (tr : List NetCall) :
    Except PyErr Unit × GState × List NetCall :=
  match get_standard_headers s with
  | .error e => (.error e, s, tr)
  | .ok headers =>
    match positions_try_body env headers s.devices tr with
    | (.ok ps, tr1) => (.ok (), { s with positions := ps }, tr1)
    | (.error e, tr1) => positions_handler e s tr1

/-- `IOPGPSData.async_update`.  The guard
`(int(time.time()) > self.expiresIn) and not forced` returns early when
the comparison is TRUE (token expired) — reading an unset `expiresIn`
raises `AttributeError` out of the method.  The `async with
self.update_lock:` block and its double-check are modelled
single-threaded (the re-check re-evaluates the same condition with the
same state and the same clock value), then `refresh_token()` is called
with its default `forced=False`, then the two fetchers in order; none of
the three is wrapped in a `try:` here, so their exceptions propagate. -/
def async_update (env : Env) (now : Int) (s : GState) (forced : Bool)
    (tr : List NetCall) : Except PyErr Unit × GState × List NetCall :=
  match s.expiresIn with
  | none => (.error .attributeError, s, tr)
  | some ev =>
    match pyGtInt now ev with
    | .error e => (.error e, s, tr)
    | .ok expired =>
      if expired && !forced then (.ok (), s, tr)
      else
        if expired && !forced then (.ok (), s, tr)
        else
          match refresh_token env now s false tr with
          | (.error e, s1, tr1) => (.error e, s1, tr1)
          | (.ok _, s1, tr1) =>
            match update_devices_data env s1 tr1 with
            | (.error e, s2, tr2) => (.error e, s2, tr2)
            | (.ok _, s2, tr2) => update_position_data env s2 tr2

/-! ### Singleton registry (`IOPGPSDataInstances`, `get_instance`)

The module-level dict `IOPGPSDataInstances` is the heap of gateway
objects; an object reference is its `guid` key, so reference identity of
two handles is equality of keys, and reading / mutating an object
through a handle is lookup / in-place replacement at that key. -/

def Registry : Type := List (String × GState)

/-- Dict lookup (`IOPGPSDataInstances[guid]` / `guid in ...`). -/
def lookupReg (h : String) : Registry → Option GState
  | [] => none
  | (g, st) :: rest => if g = h then some st else lookupReg h rest

/-- Dereference a handle: read the object it denotes. -/
def readInst (reg : Registry) (h : String) : Option GState :=
  lookupReg h reg

/-- Mutate the object a handle denotes, in place. -/
def writeInst : Registry → String → GState → Registry
  | [], _, _ => []
  | (g, st) :: rest, h, s1 =>
    if g = h then (g, s1) :: rest else (g, st) :: writeInst rest h s1

/-- `IOPGPSData.get_instance`: get-or-create keyed by `guid`; the
returned handle is the `guid` key of the stored object. -/
def get_instance (reg : Registry) (guid entry_name user key : String) :
    Registry × String :=
  match lookupReg guid reg with
  | some _ => (reg, guid)
  | none => ((guid, IOPGPSData_init guid entry_name user key) :: reg, guid)

/-- `IOPGPSData.clean_instances`: clears the whole registry. -/
def clean_instances (_reg : Registry) : Registry := []

/-! ### Concrete fixtures used by closed theorems -/

/-- A freshly constructed gateway: `IOPGPSData("guid1", "entry", "user1",
"key1")`; `token` and `expiresIn` were never assigned. -/
def freshGW : GState := IOPGPSData_init "guid1" "entry" "user1" "key1"

def dev0 : IOPGPSDevice :=
  { imei := .jstr "863019175495698", name := .jstr "car",
    mobile := .jstr "0812345678", battery_percentage := .jnum 57 }

def pos0 : IOPGPSPositionData :=
  { imei := .jstr "863019175495698", lat := .jstr "13.75",
    lng := .jstr "100.50", gpsTime := 1700000000, address := .jstr "Bangkok" }

/-- Server answering every request with HTTP 200 and the auth body
`{"accessToken": "T", "expiresIn": 7200}`. -/
def envAuth7200 : Env :=
  fun _ => .ok200 (.jobj [("accessToken", .jstr "T"), ("expiresIn", .jnum 7200)])

/-- Server timing out on every request. -/
def envAllTimeout : Env := fun _ => .timeout

/-- Server answering every request with a non-200 response and the body
`{"error": 10012}`. -/
def envApiError : Env := fun _ => .httpErr (.jobj [("error", .jnum 10012)])

/-- The single network request `get_authen_token` issues, as a function
of the credentials and the clock. -/
def auth_call (user key : String) (now : Int) : NetCall :=
  .post (API_URL ++ "auth/") [("accept", "application/json")]
    [("appid", user), ("time", toString now),
     ("signature", md5hex (utf8Bytes (md5hex (utf8Bytes key) ++ toString now)))] []

/-- Gateway holding a valid, unexpired token at clock 1000. -/
def sValidTok : GState :=
  { freshGW with token := some (.jstr "tok"), expiresIn := some (.jnum 2000) }

/-- Gateway holding an expired token at clock 1000, with one cached
device and one cached position. -/
def sExpiredTok : GState :=
  { freshGW with
    token := some (.jstr "tok")
    expiresIn := some (.jnum 500)
    devices := [dev0]
    positions := [pos0] }

/-- Gateway whose `expiresIn` attribute is set (valid at clock 1000) but
whose `token` attribute was never assigned — the token is absent in the
strict sense of the never-authenticated state. -/
def sNoTokAttr : GState := { freshGW with expiresIn := some (.jnum 2000) }

/-- Server answering every request with a non-200 response whose JSON
body is the empty object (no `error` field). -/
def envHttpErrNoField : Env := fun _ => .httpErr (.jobj [])

/-- Server answering every request with a non-200 response whose body
carries a falsy error code `{"error": 0}`. -/
def envHttpErrFalsy : Env := fun _ => .httpErr (.jobj [("error", .jnum 0)])

/-- The payload field names of a recorded request. -/
def payloadKeys : NetCall → List String
  | .post _ _ pl _ => pl.map Prod.fst
  | .get _ _ _ => []

/-! ### Supporting lemmas -/

/-- `make_post_request` records exactly its own request in the trace. -/
theorem make_post_request_trace (env : Env) (tr : List NetCall) (url : String)
    (hdrs : List (String × String)) (pl : List (String × String))
    (pr : List (String × JVal)) :
    (make_post_request env tr url hdrs pl pr).2 = tr ++ [NetCall.post url hdrs pl pr] := by
  simp only [make_post_request]
  split <;> try rfl
  split <;> rfl

/-- `make_get_request` records exactly its own request in the trace. -/
theorem make_get_request_trace (env : Env) (tr : List NetCall) (url : String)
    (hdrs : List (String × String)) (pr : List (String × JVal)) :
    (make_get_request env tr url hdrs pr).2 = tr ++ [NetCall.get url hdrs pr] := by
  simp only [make_get_request]
  split <;> try rfl
  split <;> try rfl
  split <;> try rfl
  split <;> rfl

/-- `get_authen_token` touches only `token` and `expiresIn`: the cached
device and position lists survive it untouched. -/
theorem get_authen_token_keeps_lists (env : Env) (now : Int) (s : GState)
    (tr : List NetCall) :
    (get_authen_token env now s tr).2.1.devices = s.devices ∧
    (get_authen_token env now s tr).2.1.positions = s.positions := by
  simp only [get_authen_token]
  split
  · split
    · exact ⟨rfl, rfl⟩
    · split
      · exact ⟨rfl, rfl⟩
      · exact ⟨rfl, rfl⟩
  · exact ⟨rfl, rfl⟩

/-- `get_authen_token` always issues exactly one request — the auth POST
— whatever the server answers. -/
theorem get_authen_token_trace (env : Env) (now : Int) (s : GState)
    (tr : List NetCall) :
    (get_authen_token env now s tr).2.2 = tr ++ [auth_call s.user s.key now] := by
  have h := make_post_request_trace env tr (API_URL ++ "auth/")
    [("accept", "application/json")]
    [("appid", s.user), ("time", toString now),
     ("signature", md5hex (utf8Bytes (md5hex (utf8Bytes s.key) ++ toString now)))] []
  simp only [get_authen_token, auth_call]
  split
  · rename_i json tr1 heq
    rw [heq] at h
    split
    · exact h
    · split
      · exact h
      · exact h
  · rename_i e tr1 heq
    rw [heq] at h
    exact h

/-- `refresh_token_body` never raises: it returns `.ok` with the state
produced by `get_authen_token` (re-storing the token when it is truthy)
and the same trace. -/
theorem refresh_token_body_eq (env : Env) (now : Int) (s : GState)
    (tr : List NetCall) :
    refresh_token_body env now s tr =
      (.ok (),
       (if truthy (get_authen_token env now s tr).1 then
          { (get_authen_token env now s tr).2.1 with
              token := some (get_authen_token env now s tr).1 }
        else (get_authen_token env now s tr).2.1),
       (get_authen_token env now s tr).2.2) := by
  simp only [refresh_token_body]
  rcases h : get_authen_token env now s tr with ⟨nt, s1, tr1⟩
  cases hb : truthy nt <;> simp [hb]

/-- Because the body never raises, the `except` cascade around it is
inert: `refresh_token_guarded` equals the bare body (in particular,
`clean_data` is dead code). -/
theorem refresh_token_guarded_eq_body (env : Env) (now : Int) (s : GState)
    (tr : List NetCall) :
    refresh_token_guarded env now s tr = refresh_token_body env now s tr := by
  simp only [refresh_token_guarded]
  rw [refresh_token_body_eq]

/-- Writing through a handle that is bound in the registry is visible
when reading back through that handle. -/
theorem readInst_writeInst_self (reg : Registry) (h : String) (s1 : GState)
    (hh : (lookupReg h reg).isSome) :
    readInst (writeInst reg h s1) h = some s1 := by
  induction reg with
  | nil => simp [lookupReg] at hh
  | cons p rest ih =>
    rcases p with ⟨g, st⟩
    by_cases hg : g = h
    · subst hg
      simp [writeInst, readInst, lookupReg]
    · simp only [lookupReg, if_neg hg] at hh
      simp only [writeInst, if_neg hg, readInst, lookupReg]
      exact ih hh

/-- Writing through one handle never changes what a different handle
reads. -/
theorem readInst_writeInst_other (reg : Registry) (h h2 : String)
    (s1 : GState) (hne : h ≠ h2) :
    readInst (writeInst reg h s1) h2 = readInst reg h2 := by
  induction reg with
  | nil => rfl
  | cons p rest ih =>
    rcases p with ⟨g, st⟩
    by_cases hg : g = h
    · subst hg
      simp [writeInst, readInst, lookupReg, hne]
    · simp only [writeInst, if_neg hg, readInst, lookupReg]
      by_cases hg2 : g = h2
      · simp [hg2]
      · simp only [if_neg hg2]
        exact ih

/-! ### Validation of the MD5 implementation against RFC 1321 / Python
`hashlib` test vectors -/

set_option maxRecDepth 100000 in
theorem md5hex_empty_vector : md5hex (utf8Bytes "") = "d41d8cd98f00b204e9800998ecf8427e" := by
  rfl

set_option maxRecDepth 100000 in
theorem md5hex_abc_vector : md5hex (utf8Bytes "abc") = "900150983cd24fb0d6963f7d28e17f72" := by
  rfl

/-! ### The claims -/

/-- Claim C1 (code bug).  The claim says that after a successful
`get_authen_token` against a response `{accessToken: "T", expiresIn: E}`
received at unix time `now`, the stored token is `"T"` and the stored
expiry is the absolute timestamp `now + E`.  Evaluating the embedded
code at `now = 1700000000`, `E = 7200`: the token is stored correctly,
but the stored expiry is the raw duration `7200`, not
`1700000000 + 7200` — even though `refresh_token` and `async_update`
later compare that stored value against the absolute current time. -/
theorem c1_auth_stores_raw_duration :
    (get_authen_token envAuth7200 1700000000 freshGW []).2.1.token =
      some (.jstr "T") ∧
    (get_authen_token envAuth7200 1700000000 freshGW []).2.1.expiresIn =
      some (.jnum 7200) ∧
    (7200 : Int) ≠ 1700000000 + 7200 :=
  ⟨rfl, rfl, by decide⟩

/-- Claim C2 (code bug).  The claim says a valid (unexpired) token and
`forced = false` make `async_update` return with no network I/O, and an
expired token triggers the full refresh cycle.  The code's guard is
inverted: at clock 1000 with expiry 2000 (valid token) it performs
network I/O (one request reaches the wire before the cycle degrades),
and at clock 1000 with expiry 500 (expired token) it returns immediately
— no token refresh, no fetch, state untouched. -/
theorem c2_async_update_gate_is_inverted :
    (async_update envAllTimeout 1000 sValidTok false []).2.2.length = 1 ∧
    async_update envAllTimeout 1000 sExpiredTok false [] =
      (.ok (), sExpiredTok, []) :=
  ⟨rfl, rfl⟩

/-- Claim C4 (code bug).  The claim says `async_update` and
`refresh_token` never raise, even on a freshly constructed instance.  On
a fresh instance the guard `int(time.time()) > self.expiresIn` reads the
never-assigned attribute `expiresIn` outside any `try:` block, so both
methods raise `AttributeError` to the caller. -/
theorem c4_fresh_instance_raises :
    async_update envAllTimeout 42 freshGW false [] =
      (.error .attributeError, freshGW, []) ∧
    refresh_token envAllTimeout 42 freshGW false [] =
      (.error .attributeError, freshGW, []) :=
  ⟨rfl, rfl⟩

/-- Claim C8 (confirmed).  `get_instance` is an idempotent get-or-create
keyed by accountId (`guid`): calling it again with the same accountId
returns the same handle with the registry unchanged; construction is the
pure constructor (no network data, no token); different accountIds get
distinct handles whose states are independent — mutating one is
invisible through the other, while a mutation through one handle of an
accountId is visible through every handle of that accountId. -/
theorem c8_get_instance_singleton (reg : Registry)
    (g g2 e u k e2 u2 k2 e3 u3 k3 : String)
    (hg : lookupReg g reg = none) (hg2 : lookupReg g2 reg = none)
    (hne : g ≠ g2) :
    get_instance (get_instance reg g e u k).1 g e3 u3 k3 =
      ((get_instance reg g e u k).1, (get_instance reg g e u k).2) ∧
    readInst (get_instance reg g e u k).1 g = some (IOPGPSData_init g e u k) ∧
    (get_instance (get_instance reg g e u k).1 g2 e2 u2 k2).2 ≠
      (get_instance reg g e u k).2 ∧
    readInst (get_instance (get_instance reg g e u k).1 g2 e2 u2 k2).1 g2 =
      some (IOPGPSData_init g2 e2 u2 k2) ∧
    readInst (get_instance (get_instance reg g e u k).1 g2 e2 u2 k2).1 g =
      some (IOPGPSData_init g e u k) ∧
    (∀ s1, readInst (writeInst
        (get_instance (get_instance reg g e u k).1 g2 e2 u2 k2).1 g s1) g2 =
      readInst (get_instance (get_instance reg g e u k).1 g2 e2 u2 k2).1 g2) ∧
    (∀ s1, readInst (writeInst
        (get_instance (get_instance reg g e u k).1 g2 e2 u2 k2).1 g s1) g =
      some s1) := by
  have h1 : get_instance reg g e u k = ((g, IOPGPSData_init g e u k) :: reg, g) := by
    simp [get_instance, hg]
  have hlg2 : lookupReg g2 ((g, IOPGPSData_init g e u k) :: reg) = none := by
    simp [lookupReg, hne, hg2]
  rw [h1]
  have h2 : get_instance ((g, IOPGPSData_init g e u k) :: reg, g).1 g2 e2 u2 k2 =
      ((g2, IOPGPSData_init g2 e2 u2 k2) :: (g, IOPGPSData_init g e u k) :: reg, g2) := by
    simp [get_instance, hlg2]
  rw [h2]
  refine ⟨?_, ?_, ?_, ?_, ?_, ?_, ?_⟩
  · simp [get_instance, lookupReg]
  · simp [readInst, lookupReg]
  · exact Ne.symm hne
  · simp [readInst, lookupReg]
  · simp [readInst, lookupReg, Ne.symm hne]
  · intro s1
    simp [writeInst, readInst, lookupReg, Ne.symm hne]
  · intro s1
    simp [writeInst, readInst, lookupReg, Ne.symm hne]

/-- Witness for C8: two accounts `"a"` and `"b"` registered into the
empty registry; all parts of the theorem hold there. -/
theorem c8_get_instance_singleton_witness :
    readInst (get_instance (get_instance [] "a" "n1" "u1" "k1").1
        "b" "n2" "u2" "k2").1 "a" =
      some (IOPGPSData_init "a" "n1" "u1" "k1") ∧
    (get_instance (get_instance [] "a" "n1" "u1" "k1").1 "b" "n2" "u2" "k2").2 ≠
      (get_instance [] "a" "n1" "u1" "k1").2 := by
  have h := c8_get_instance_singleton [] "a" "b" "n1" "u1" "k1"
    "n2" "u2" "k2" "n3" "u3" "k3" rfl rfl (by decide)
  exact ⟨h.2.2.2.2.1, h.2.2.1⟩

/-- Claim C10 (confirmed).  When an instance for the accountId already
exists, `get_instance` ignores every supplied argument and returns the
registry unchanged together with the existing handle, so the stored
instance keeps all its prior field values. -/
theorem c10_get_instance_existing_kept (reg : Registry) (g : String)
    (st : GState) (e2 u2 k2 : String) (h : lookupReg g reg = some st) :
    get_instance reg g e2 u2 k2 = (reg, g) ∧ readInst reg g = some st := by
  constructor
  · simp [get_instance, h]
  · exact h

/-- Witness for C10: a registry already holding `"guid1"`; a second call
with fresh entry name and credentials changes nothing. -/
theorem c10_get_instance_existing_kept_witness :
    get_instance [("guid1", sValidTok)] "guid1" "other" "u9" "k9" =
      ([("guid1", sValidTok)], "guid1") ∧
    readInst [("guid1", sValidTok)] "guid1" = some sValidTok :=
  c10_get_instance_existing_kept [("guid1", sValidTok)] "guid1" sValidTok
    "other" "u9" "k9" rfl

/-- Claim C5, counterexample.  The claim says a failed authentication
inside `refresh_token` clears the cached device/position lists.  At
clock 1000, expiry 500 (expired, so a refresh runs) and a server
answering the auth POST with `{"error": 10012}`, `get_authen_token`
swallows the `ApiError` and returns `None`; `refresh_token` then only
logs "Failed to refresh token" — the cached lists survive intact
(`clean_data` lives in an unreachable `except` branch). -/
theorem c5_auth_failure_counterexample :
    (refresh_token envApiError 1000 sExpiredTok false []).1 = .ok () ∧
    (refresh_token envApiError 1000 sExpiredTok false []).2.1.devices = [dev0] ∧
    (refresh_token envApiError 1000 sExpiredTok false []).2.1.positions = [pos0] ∧
    [dev0] ≠ ([] : List IOPGPSDevice) :=
  ⟨rfl, rfl, rfl, List.cons_ne_nil dev0 []⟩

/-- Claim C5 (corrected).  Amended: when the refresh guard fires (token
expired) and the authentication attempt yields no token (a falsy
return), `refresh_token` swallows the failure — it returns normally and
the cached device and position lists are left exactly as they were, not
cleared; `clean_data` is only reachable from a dead `except` branch. -/
theorem c5_auth_failure_keeps_lists (env : Env) (now : Int) (s : GState)
    (tr : List NetCall) (e : Int) (he : s.expiresIn = some (.jnum e))
    (hexp : e < now)
    (hfail : truthy (get_authen_token env now s tr).1 = false) :
    (refresh_token env now s false tr).1 = .ok () ∧
    (refresh_token env now s false tr).2.1.devices = s.devices ∧
    (refresh_token env now s false tr).2.1.positions = s.positions := by
  have hg := refresh_token_guarded_eq_body env now s tr
  have hb := refresh_token_body_eq env now s tr
  have hk := get_authen_token_keeps_lists env now s tr
  simp only [hfail, Bool.false_eq_true, if_false] at hb
  have hgt : pyGtInt now (.jnum e) = .ok true := by
    simp [pyGtInt]
    omega
  simp only [refresh_token, he, hgt, if_true, hg, hb]
  exact ⟨trivial, hk.1, hk.2⟩

/-- Witness for the amended C5 at the counterexample's input. -/
theorem c5_auth_failure_keeps_lists_witness :
    (refresh_token envApiError 1000 sExpiredTok false []).2.1.devices =
      sExpiredTok.devices ∧
    (refresh_token envApiError 1000 sExpiredTok false []).2.1.positions =
      sExpiredTok.positions := by
  have h := c5_auth_failure_keeps_lists envApiError 1000 sExpiredTok [] 500
    rfl (by decide) rfl
  exact ⟨h.2.1, h.2.2⟩

/-- Claim C6, counterexample.  The claim says `refresh_token` with
`forced = false` performs exactly one authentication call whenever the
token is expired or absent.  On the canonical absent-token states — a
freshly constructed gateway whose `token` (and `expiresIn`) attributes
were never assigned, and a gateway with a populated expiry but a
never-assigned `token` — the guard raises `AttributeError` out of the
method and performs zero network calls, not one. -/
theorem c6_absent_token_counterexample :
    freshGW.token = none ∧
    refresh_token envApiError 42 freshGW false [] =
      (.error .attributeError, freshGW, []) ∧
    (refresh_token envApiError 42 freshGW false []).2.2.length = 0 ∧
    sNoTokAttr.token = none ∧
    refresh_token envApiError 1000 sNoTokAttr false [] =
      (.error .attributeError, sNoTokAttr, []) ∧
    (refresh_token envApiError 1000 sNoTokAttr false []).2.2.length = 0 :=
  ⟨rfl, rfl, rfl, rfl, rfl, rfl⟩

/-- Claim C6 (corrected).  Amended: `refresh_token(forced=false)`
performs zero authentication calls and returns with the state untouched
when the token is a stored non-`None` value and not expired (hence it is
idempotent while the token stays valid); it performs exactly one network
call — the authentication POST — when the expiry field is populated and
expired, or when the stored token is the value `None`; but when the
token is absent in the sense of a never-assigned attribute (the state of
every gateway before its first successful authentication, whether or not
`expiresIn` is populated), it performs zero authentication calls and
raises `AttributeError` instead of authenticating. -/
theorem c6_refresh_token_calls_amended (env : Env) (now : Int) (s : GState)
    (tr : List NetCall) :
    (∀ e, s.expiresIn = some (.jnum e) → ¬ now > e →
      ∀ t, s.token = some t → t ≠ .jnull →
      refresh_token env now s false tr = (.ok (), s, tr)) ∧
    (∀ e, s.expiresIn = some (.jnum e) → (now > e ∨ s.token = some .jnull) →
      (refresh_token env now s false tr).2.2 =
        tr ++ [auth_call s.user s.key now]) ∧
    (∀ e, s.expiresIn = some (.jnum e) → ¬ now > e → s.token = none →
      refresh_token env now s false tr = (.error .attributeError, s, tr)) ∧
    (s.expiresIn = none →
      refresh_token env now s false tr = (.error .attributeError, s, tr)) := by
  have hguard : (refresh_token_guarded env now s tr).2.2 =
      tr ++ [auth_call s.user s.key now] := by
    rw [refresh_token_guarded_eq_body, refresh_token_body_eq]
    exact get_authen_token_trace env now s tr
  refine ⟨?_, ?_, ?_, ?_⟩
  · intro e he hne t ht htn
    have hgt : pyGtInt now (.jnum e) = .ok false := by
      simp [pyGtInt, hne]
    simp only [refresh_token, he, hgt, Bool.false_eq_true, if_false, ht]
  · intro e he hor
    by_cases hx : now > e
    · have hgt : pyGtInt now (.jnum e) = .ok true := by
        simp [pyGtInt, hx]
      simp only [refresh_token, he, hgt, if_true]
      exact hguard
    · have hgt : pyGtInt now (.jnum e) = .ok false := by
        simp [pyGtInt, hx]
      rcases hor with hx2 | htok
      · exact absurd hx2 hx
      · simp only [refresh_token, he, hgt, Bool.false_eq_true, if_false, htok]
        exact hguard
  · intro e he hne ht
    have hgt : pyGtInt now (.jnum e) = .ok false := by
      simp [pyGtInt, hne]
    simp only [refresh_token, he, hgt, Bool.false_eq_true, if_false, ht]
  · intro he
    simp only [refresh_token, he]

/-- Witness for the amended C6, exercising all four regimes: a valid
token refreshes nothing; an expired token issues exactly the one auth
POST; a never-assigned token with a valid expiry raises with zero calls;
a freshly constructed gateway raises with zero calls. -/
theorem c6_refresh_token_calls_amended_witness :
    refresh_token envApiError 1000 sValidTok false [] = (.ok (), sValidTok, []) ∧
    (refresh_token envApiError 1000 sExpiredTok false []).2.2 =
      [] ++ [auth_call sExpiredTok.user sExpiredTok.key 1000] ∧
    refresh_token envApiError 1000 sNoTokAttr false [] =
      (.error .attributeError, sNoTokAttr, []) ∧
    refresh_token envApiError 42 freshGW false [] =
      (.error .attributeError, freshGW, []) := by
  have h1 := (c6_refresh_token_calls_amended envApiError 1000 sValidTok []).1
    2000 rfl (by decide) (.jstr "tok") rfl (fun hh => JVal.noConfusion hh)
  have h2 := (c6_refresh_token_calls_amended envApiError 1000 sExpiredTok []).2.1
    500 rfl (Or.inl (by decide))
  have h3 := (c6_refresh_token_calls_amended envApiError 1000 sNoTokAttr []).2.2.1
    2000 rfl (by decide) rfl
  have h4 := (c6_refresh_token_calls_amended envApiError 42 freshGW []).2.2.2 rfl
  exact ⟨h1, h2, h3, h4⟩

/-- Claim C7, counterexample.  The claim says GET and POST helpers
behave identically on non-200 responses.  On a non-200 response whose
body lacks an `error` field, the GET helper swallows the failure and
returns Python `None`, while the POST helper raises — `ApiError.__init__`
evaluates `json["error"]` and the `KeyError` escapes. -/
theorem c7_non200_counterexample :
    (make_get_request envHttpErrNoField [] "u" [] []).1 = .ok .jnull ∧
    (make_post_request envHttpErrNoField [] "u" [] [] []).1 = .error .keyError ∧
    (Except.ok JVal.jnull : Except PyErr JVal) ≠ .error .keyError :=
  ⟨rfl, rfl, fun h => Except.noConfusion h⟩

/-- Claim C7 (corrected).  Amended: on a non-200 response with a dict
body, the two helpers agree only when the body holds a truthy `error`
value (both raise `ApiError` with it).  Otherwise they diverge: the GET
helper swallows the failure and returns `None` whenever `error` is
missing or falsy, while the POST helper always raises — `ApiError` when
the field is present (truthy or not), `KeyError` when it is missing. -/
theorem c7_non200_amended (env : Env) (tr : List NetCall) (url : String)
    (hdrs : List (String × String)) (pl : List (String × String))
    (pr : List (String × JVal)) (fs : List (String × JVal))
    (henv : env tr.length = .httpErr (.jobj fs)) :
    (∀ v, fs.lookup "error" = some v → truthy v = true →
      (make_get_request env tr url hdrs pr).1 = .error (.apiError v) ∧
      (make_post_request env tr url hdrs pl pr).1 = .error (.apiError v)) ∧
    (∀ v, fs.lookup "error" = some v → truthy v = false →
      (make_get_request env tr url hdrs pr).1 = .ok .jnull ∧
      (make_post_request env tr url hdrs pl pr).1 = .error (.apiError v)) ∧
    (fs.lookup "error" = none →
      (make_get_request env tr url hdrs pr).1 = .ok .jnull ∧
      (make_post_request env tr url hdrs pl pr).1 = .error .keyError) := by
  refine ⟨?_, ?_, ?_⟩
  · intro v hv htv
    constructor
    · simp only [make_get_request, henv, hv, htv, if_true]
    · simp only [make_post_request, henv, pyIndex, hv]
  · intro v hv htv
    constructor
    · simp only [make_get_request, henv, hv, htv, Bool.false_eq_true, if_false]
    · simp only [make_post_request, henv, pyIndex, hv]
  · intro hv
    constructor
    · simp only [make_get_request, henv, hv]
    · simp only [make_post_request, henv, pyIndex, hv]

/-- Witness for the amended C7 at three concrete bodies: a truthy error
code, a falsy error code, and a missing error field. -/
theorem c7_non200_amended_witness :
    ((make_get_request envApiError [] "u" [] []).1 =
        .error (.apiError (.jnum 10012)) ∧
      (make_post_request envApiError [] "u" [] [] []).1 =
        .error (.apiError (.jnum 10012))) ∧
    ((make_get_request envHttpErrFalsy [] "u" [] []).1 = .ok .jnull ∧
      (make_post_request envHttpErrFalsy [] "u" [] [] []).1 =
        .error (.apiError (.jnum 0))) ∧
    ((make_get_request envHttpErrNoField [] "u" [] []).1 = .ok .jnull ∧
      (make_post_request envHttpErrNoField [] "u" [] [] []).1 =
        .error .keyError) := by
  have h1 := (c7_non200_amended envApiError [] "u" [] [] []
    [("error", .jnum 10012)] rfl).1 (.jnum 10012) rfl rfl
  have h2 := (c7_non200_amended envHttpErrFalsy [] "u" [] [] []
    [("error", .jnum 0)] rfl).2.1 (.jnum 0) rfl rfl
  have h3 := (c7_non200_amended envHttpErrNoField [] "u" [] [] []
    [] rfl).2.2 rfl
  exact ⟨h1, h2, h3⟩

/-- Claim C3, counterexample.  The claim says any fetch error — ApiError,
TimeoutError, or other — empties the in-memory list.  With a cached
device and a server that times out, `update_devices_data` issues its
device-list GET, catches the `TimeoutError`, and leaves the previous
snapshot in place: state unchanged, list still non-empty. -/
theorem c3_timeout_keeps_previous_counterexample :
    update_devices_data envAllTimeout sExpiredTok [] =
      (.ok (), sExpiredTok,
        [NetCall.get (API_URL ++ "device") [("accessToken", "tok")] []]) ∧
    sExpiredTok.devices ≠ [] :=
  ⟨rfl, List.cons_ne_nil dev0 []⟩

/-- Claim C3 (corrected).  Amended: both fetchers replace the whole list
only after every request of the cycle succeeded, and on `ApiError` or
any other non-timeout exception they set the list to empty — but on
`TimeoutError` they only log and keep the previous snapshot.  The list
is still never left partially populated. -/
theorem c3_fetch_error_policy (env : Env) (s : GState) (tr : List NetCall)
    (hdrs : List (String × String)) (hh : get_standard_headers s = .ok hdrs) :
    (∀ tr1, devices_try_body env hdrs tr = (.error .timeoutError, tr1) →
      (update_devices_data env s tr).2.1.devices = s.devices) ∧
    (∀ ex tr1, devices_try_body env hdrs tr = (.error ex, tr1) →
      ex ≠ .timeoutError → (update_devices_data env s tr).2.1.devices = []) ∧
    (∀ ds tr1, devices_try_body env hdrs tr = (.ok ds, tr1) →
      (update_devices_data env s tr).2.1.devices = ds) ∧
    (∀ tr1, positions_try_body env hdrs s.devices tr = (.error .timeoutError, tr1) →
      (update_position_data env s tr).2.1.positions = s.positions) ∧
    (∀ ex tr1, positions_try_body env hdrs s.devices tr = (.error ex, tr1) →
      ex ≠ .timeoutError → (update_position_data env s tr).2.1.positions = []) ∧
    (∀ ps tr1, positions_try_body env hdrs s.devices tr = (.ok ps, tr1) →
      (update_position_data env s tr).2.1.positions = ps) := by
  refine ⟨?_, ?_, ?_, ?_, ?_, ?_⟩
  · intro tr1 hbody
    simp only [update_devices_data, hh, hbody, devices_handler]
  · intro ex tr1 hbody hex
    simp only [update_devices_data, hh, hbody, devices_handler]
  · intro ds tr1 hbody
    simp only [update_devices_data, hh, hbody]
  · intro tr1 hbody
    simp only [update_position_data, hh, hbody, positions_handler]
  · intro ex tr1 hbody hex
    simp only [update_position_data, hh, hbody, positions_handler]
  · intro ps tr1 hbody
    simp only [update_position_data, hh, hbody]

/-- Witness for the amended C3: with a cached device and a server that
times out, both fetchers keep their previous snapshots. -/
theorem c3_fetch_error_policy_witness :
    (update_devices_data envAllTimeout sExpiredTok []).2.1.devices =
      sExpiredTok.devices ∧
    (update_position_data envAllTimeout sExpiredTok []).2.1.positions =
      sExpiredTok.positions := by
  have h := c3_fetch_error_policy envAllTimeout sExpiredTok []
    [("accessToken", "tok")] rfl
  exact ⟨h.1 _ rfl, h.2.2.2.1 _ rfl⟩

/-- Claim C9, counterexample.  The claim names the auth payload fields
`{appId, time, signature}` and demands exact vendor field names; the
code (and the vendor's own curl example in its docstring) sends
`appid`, lowercase. -/
theorem c9_payload_field_names_counterexample :
    ((get_authen_token envAllTimeout 1700000000 freshGW []).2.2.map
      payloadKeys) = [["appid", "time", "signature"]] ∧
    ["appid", "time", "signature"] ≠ ["appId", "time", "signature"] :=
  ⟨rfl, by decide⟩

/-- Claim C9 (corrected).  Amended: for every credential pair and unix
time, `get_authen_token` issues exactly one request — a POST to
`API_URL ++ "auth/"` whose payload is exactly
`{appid: user, time: str(timestamp), signature}` with
`signature = hex(MD5(hex(MD5(key)) ++ str(timestamp)))` — the claim's
field list with `appId` corrected to the code's lowercase `appid`. -/
theorem c9_auth_request_shape (env : Env) (now : Int) (s : GState)
    (tr : List NetCall) :
    (get_authen_token env now s tr).2.2 = tr ++
      [NetCall.post (API_URL ++ "auth/") [("accept", "application/json")]
        [("appid", s.user), ("time", toString now),
         ("signature",
          md5hex (utf8Bytes (md5hex (utf8Bytes s.key) ++ toString now)))]
        []] :=
  get_authen_token_trace env now s tr
